import Mathlib

/-!
Verification of the TruePic image heuristic scoring engine
(`ImageAnalyzer` in `src/App.tsx`) against its natural-language
specification.

The pixel buffer is modelled as a flat `List ℕ` of 8-bit RGBA channel
values in row-major order, together with a `width` (and, where needed, a
`height`).  JavaScript number arithmetic is modelled by exact rationals
(`ℚ`), with `Math.sqrt` modelled by `Real.sqrt` over `ℝ`;
`Math.round x` is modelled as `⌊x + 1/2⌋`, which agrees with
JavaScript's round-half-towards-positive-infinity.  Out-of-range array
reads (`data[i] || 0`) are modelled by `List.getD _ _ 0`.  The random
pixel / row / unit-interval draws made by the detectors are modelled by
explicit streams (`ℕ → ℕ`, `ℕ → ℚ`): the `i`-th value of the stream is
the result of the `i`-th call to `Math.random()` scaled exactly as the
source scales it, so universally quantifying over the stream quantifies
over all outcomes of the random sampling.
-/

namespace TruePic

/-- Channel value at flat index `i`, as a rational (missing reads give 0,
matching the source's `data[i] || 0` guards). -/
def px (data : List ℕ) (i : ℕ) : ℚ := (data.getD i 0 : ℚ)

/-- JavaScript `Math.round`: round half towards positive infinity. -/
def jsRound (q : ℚ) : ℤ := ⌊q + 1 / 2⌋

/-- JavaScript `Math.round` on real values (used after `Math.sqrt`). -/
noncomputable def jsRoundR (x : ℝ) : ℤ := ⌊x + 1 / 2⌋

/-- The candidate neighbor indices `[index - width*4, index + width*4,
index - 4, index + 4]` kept by the source's filter
`i => i >= 0 && i < data.length`.  The bound check is on the flat
array, not on the 2-D image. -/
def neighborIndices (len index width : ℕ) : List ℤ :=
  [(index : ℤ) - width * 4, (index : ℤ) + width * 4,
   (index : ℤ) - 4, (index : ℤ) + 4].filter
    (fun i => decide (0 ≤ i) && decide (i < (len : ℤ)))

/-- `getNeighborAverage`: per-channel mean over the surviving candidate
indices; the denominator is the number of surviving candidates. -/
def getNeighborAverage (data : List ℕ) (index width : ℕ) : ℚ × ℚ × ℚ :=
  let neighbors := neighborIndices data.length index width
  let count : ℚ := (neighbors.length : ℚ)
  ((neighbors.map (fun i => px data i.toNat)).sum / count,
   (neighbors.map (fun i => px data (i.toNat + 1))).sum / count,
   (neighbors.map (fun i => px data (i.toNat + 2))).sum / count)

/-- Sum of per-channel absolute differences between the pixel at `index`
and its neighbor average (used by 4.2 and by the smoothness half of 4.4). -/
def pixelDiff (data : List ℕ) (width index : ℕ) : ℚ :=
  let a := getNeighborAverage data index width
  |px data index - a.1| + |px data (index + 1) - a.2.1| +
    |px data (index + 2) - a.2.2|

/-- Outcome record of the pixel anomaly detector. -/
structure PixelAnomalyOut where
  detected : Bool
  severity : ℤ

/-- Number of the 1000 sampled pixels whose difference from their
neighbor average exceeds 100.  `d1 i` is the `i`-th random pixel draw
(`Math.floor(Math.random() * (data.length / 4))`). -/
def anomalyCount (data : List ℕ) (width : ℕ) (d1 : ℕ → ℕ) : ℕ :=
  ((Finset.range 1000).filter (fun i => 100 < pixelDiff data width (d1 i * 4))).card

/-- Unrounded severity `(anomalyCount / 1000) * 100`. -/
def severityRaw (data : List ℕ) (width : ℕ) (d1 : ℕ → ℕ) : ℚ :=
  (anomalyCount data width d1 : ℚ) / 1000 * 100

/-- `analyzePixelAnomalies`: `detected` compares the unrounded severity
with 15; the returned severity is rounded. -/
def analyzePixelAnomalies (data : List ℕ) (width : ℕ) (d1 : ℕ → ℕ) :
    PixelAnomalyOut :=
  ⟨decide (15 < severityRaw data width d1), jsRound (severityRaw data width d1)⟩

/-- Per-pixel brightness sequence: the loop `for (i = 0; i < len; i += 4)`
pushes `(r + g + b) / 3` once per started pixel, so it runs
`⌈len / 4⌉ = (len + 3) / 4` times. -/
def brightnessList (data : List ℕ) : List ℚ :=
  (List.range ((data.length + 3) / 4)).map
    (fun k => (px data (4 * k) + px data (4 * k + 1) + px data (4 * k + 2)) / 3)

/-- Population mean of the brightness sequence. -/
def lightMean (data : List ℕ) : ℚ :=
  (brightnessList data).sum / ((brightnessList data).length : ℚ)

/-- Population variance of the brightness sequence. -/
def lightVariance (data : List ℕ) : ℚ :=
  ((brightnessList data).map (fun b => (b - lightMean data) ^ 2)).sum /
    ((brightnessList data).length : ℚ)

/-- `consistencyScore = max(0, 100 - (sqrt(variance) / 255) * 200)`,
an (unrounded) real number. -/
noncomputable def consistencyScore (data : List ℕ) : ℝ :=
  max 0 (100 - Real.sqrt ((lightVariance data : ℚ) : ℝ) / 255 * 200)

/-- Outcome record of the lighting/shadow detector.  `consistent` is the
proposition the source's boolean computes. -/
structure LightingOut where
  consistent : Prop
  score : ℤ

/-- `analyzeLightingAndShadows`: `consistent` compares the *unrounded*
consistency score with 40; only the returned `score` field is rounded. -/
noncomputable def analyzeLightingAndShadows (data : List ℕ) : LightingOut :=
  ⟨40 < consistencyScore data, jsRoundR (consistencyScore data)⟩

/-- Outcome record of the AI-artifact detector. -/
structure AIOut where
  detected : Bool
  confidence : ℤ

/-- Sum of per-channel absolute differences between the leftmost and the
rightmost pixel of row `y`. -/
def symmetricDiff (data : List ℕ) (width y : ℕ) : ℚ :=
  |px data (y * width * 4) - px data ((y * width + width - 1) * 4)| +
    |px data (y * width * 4 + 1) - px data ((y * width + width - 1) * 4 + 1)| +
    |px data (y * width * 4 + 2) - px data ((y * width + width - 1) * 4 + 2)|

/-- Number of the 50 sampled rows whose edge difference is below 30.
`d2 i` is the `i`-th random row draw. -/
def symmetryCount (data : List ℕ) (width : ℕ) (d2 : ℕ → ℕ) : ℕ :=
  ((Finset.range 50).filter (fun i => symmetricDiff data width (d2 i) < 30)).card

/-- Number of the 1000 sampled pixels whose difference from their
neighbor average is below 20.  `d3 i` is the `i`-th random pixel draw. -/
def smoothCount (data : List ℕ) (width : ℕ) (d3 : ℕ → ℕ) : ℕ :=
  ((Finset.range 1000).filter (fun i => pixelDiff data width (d3 i * 4) < 20)).card

/-- Unrounded AI confidence
`(symmetryCount/50*100) * 0.3 + (smoothCount/1000*100) * 0.7`. -/
def aiRaw (data : List ℕ) (width : ℕ) (d2 d3 : ℕ → ℕ) : ℚ :=
  (symmetryCount data width d2 : ℚ) / 50 * 100 * 0.3 +
    (smoothCount data width d3 : ℚ) / 1000 * 100 * 0.7

/-- `detectAIArtifacts`: `detected` compares the unrounded confidence
with 60; the returned confidence is rounded. -/
def detectAIArtifacts (data : List ℕ) (width : ℕ) (d2 d3 : ℕ → ℕ) : AIOut :=
  ⟨decide (60 < aiRaw data width d2 d3), jsRound (aiRaw data width d2 d3)⟩

/-- File-level facts, independent of pixel content.  An absent MIME type
is the empty string and an absent/zero modification timestamp is `0`
(both are falsy in the source). -/
structure FileFacts where
  mimeType : String
  size : ℕ
  name : String
  lastModified : ℕ

/-- Outcome record of the metadata plausibility detector. -/
structure MetaOut where
  authentic : Bool
  flags : List String

/-- `pat` matches at the head of `s`. -/
def headMatch : List Char → List Char → Bool
  | [], _ => true
  | _ :: _, [] => false
  | a :: as, b :: bs => a == b && headMatch as bs

/-- `pat` matches somewhere inside `s`. -/
def subMatch : List Char → List Char → Bool
  | pat, [] => pat.isEmpty
  | pat, b :: bs => headMatch pat (b :: bs) || subMatch pat bs

/-- `s` contains `pat` as a contiguous substring (the source's
`String.prototype.includes`). -/
def strContains (s pat : String) : Bool := subMatch pat.toList s.toList

/-- Rule 1: declared MIME type present and not starting with `image/`. -/
def mimeInvalid (f : FileFacts) : Bool :=
  decide (f.mimeType ≠ "") && !(f.mimeType.startsWith "image/")

/-- Rule 2: byte size below 1000. -/
def sizeTooSmall (f : FileFacts) : Bool := decide (f.size < 1000)

/-- Rule 3: byte size above 50 MiB. -/
def sizeTooLarge (f : FileFacts) : Bool := decide (50 * 1024 * 1024 < f.size)

/-- Rule 4: absent/zero modification timestamp. -/
def timestampMissing (f : FileFacts) : Bool := decide (f.lastModified = 0)

/-- Rule 5: lower-cased filename contains `screenshot` or `screen shot`. -/
def screenshotName (f : FileFacts) : Bool :=
  strContains f.name.toLower "screenshot" || strContains f.name.toLower "screen shot"

/-- Rule 6: lower-cased filename contains `ai`, `generated`, `midjourney`
or `dalle`. -/
def aiName (f : FileFacts) : Bool :=
  strContains f.name.toLower "ai" || strContains f.name.toLower "generated" ||
    strContains f.name.toLower "midjourney" || strContains f.name.toLower "dalle"

/-- The flags list built by the source's sequence of conditional pushes,
in source order. -/
def metadataFlags (f : FileFacts) : List String :=
  (if mimeInvalid f then ["Invalid MIME type"] else []) ++
  (if sizeTooSmall f then ["Suspiciously small file size"] else []) ++
  (if sizeTooLarge f then ["Unusually large file size"] else []) ++
  (if timestampMissing f then ["Missing modification timestamp"] else []) ++
  (if screenshotName f then ["Screenshot detected"] else []) ++
  (if aiName f then ["AI-related filename"] else [])

/-- `analyzeMetadata`: `authentic` is `flags.length === 0`. -/
def analyzeMetadata (f : FileFacts) : MetaOut :=
  ⟨(metadataFlags f).length == 0, metadataFlags f⟩

/-- Outcome record of the semantic/color-diversity detector. -/
structure SemanticOut where
  logical : Bool
  score : ℤ

/-- Quantized `(r, g, b)` triples collected by the loop
`for (i = 0; i < 10000 && i < data.length; i += 40)`: one triple per
`i = 40 * k` with `k < 250` and `40 * k < data.length`. -/
def semanticTriples (data : List ℕ) : List (ℕ × ℕ × ℕ) :=
  ((List.range 250).filter (fun k => decide (40 * k < data.length))).map
    (fun k => (data.getD (40 * k) 0 / 32, data.getD (40 * k + 1) 0 / 32,
               data.getD (40 * k + 2) 0 / 32))

/-- Size of the set of distinct quantized colors observed. -/
def colorDiversityCount (data : List ℕ) : ℕ := (semanticTriples data).toFinset.card

/-- Unrounded diversity score `min(100, (distinct / 250) * 100)`. -/
def diversityRaw (data : List ℕ) : ℚ :=
  min 100 ((colorDiversityCount data : ℚ) / 250 * 100)

/-- `analyzeSemanticLogic`: `logical` compares the unrounded diversity
score with 30; the returned score is rounded. -/
def analyzeSemanticLogic (data : List ℕ) : SemanticOut :=
  ⟨decide (30 < diversityRaw data), jsRound (diversityRaw data)⟩

/-- One heatmap region; fields are fractions of the image dimensions. -/
structure HeatRegion where
  x : ℚ
  y : ℚ
  width : ℚ
  height : ℚ
  intensity : ℚ

/-- `generateHeatmap`: `floor((severity + confidence) / 20)` regions,
capped at 8; region `i` consumes the five unit-interval draws
`hr (5*i) .. hr (5*i+4)` in source order x, y, width, height, intensity. -/
def generateHeatmap (severity confidence : ℤ) (hr : ℕ → ℚ) : List HeatRegion :=
  let numRegions : ℤ := ⌊((severity : ℚ) + (confidence : ℚ)) / 20⌋
  (List.range (min numRegions 8).toNat).map
    (fun i =>
      { x := hr (5 * i) * 0.8
        y := hr (5 * i + 1) * 0.8
        width := 0.1 + hr (5 * i + 2) * 0.15
        height := 0.1 + hr (5 * i + 3) * 0.15
        intensity := 0.3 + hr (5 * i + 4) * 0.7 })

/-- Classification outcome. -/
inductive ResultType where
  | real
  | edited
  | ai_generated
deriving DecidableEq

/-- The `metadataAnalysis` summary of the final result: `hasExif` is the
literal `true` and `dateTime` is derived from the file's `lastModified`
(the ISO-string formatting is abstracted to the timestamp itself). -/
structure MetadataSummary where
  hasExif : Bool
  dateTime : Option ℕ
  flags : List String

/-- The aggregate analysis record (description strings, the explanation
text and the wall-clock timing are omitted: no claim concerns them). -/
structure AnalysisRecord where
  resultType : ResultType
  manipulationScore : ℤ
  trustScore : ℤ
  pixelAnomalies : PixelAnomalyOut
  lightingShadows : LightingOut
  aiArtifacts : AIOut
  metadata : MetaOut
  semanticLogic : SemanticOut
  heatmapData : List HeatRegion
  metadataAnalysis : MetadataSummary

/-- `analyzeImage`: runs the five detectors, aggregates their outputs
with the fixed linear weighting, classifies with the first-match
priority rule, and clamps both final scores to [0, 100]. -/
noncomputable def analyzeImage (data : List ℕ) (width : ℕ) (facts : FileFacts)
    (d1 d2 d3 : ℕ → ℕ) (hr : ℕ → ℚ) : AnalysisRecord :=
  let pixelAnomalies := analyzePixelAnomalies data width d1
  let lightingShadows := analyzeLightingAndShadows data
  let aiArtifacts := detectAIArtifacts data width d2 d3
  let metadata := analyzeMetadata facts
  let semanticLogic := analyzeSemanticLogic data
  let manipulationScore : ℤ := jsRound
    ((pixelAnomalies.severity : ℚ) * 0.25 +
      (100 - (lightingShadows.score : ℚ)) * 0.2 +
      (aiArtifacts.confidence : ℚ) * 0.35 +
      (metadata.flags.length : ℚ) * 5 +
      (100 - (semanticLogic.score : ℚ)) * 0.2)
  let trustScore : ℤ := max 0 (100 - manipulationScore)
  { resultType :=
      if aiArtifacts.detected = true ∧ 70 < aiArtifacts.confidence then
        ResultType.ai_generated
      else if 50 < manipulationScore then ResultType.edited
      else ResultType.real
    manipulationScore := min 100 (max 0 manipulationScore)
    trustScore := min 100 (max 0 trustScore)
    pixelAnomalies := pixelAnomalies
    lightingShadows := lightingShadows
    aiArtifacts := aiArtifacts
    metadata := metadata
    semanticLogic := semanticLogic
    heatmapData := generateHeatmap pixelAnomalies.severity aiArtifacts.confidence hr
    metadataAnalysis :=
      { hasExif := true
        dateTime := some facts.lastModified
        flags := metadata.flags } }

/-- Written from the spec's words for claim C4: the neighbor indices of
the pixel at `(row, col)` are its up/down/left/right neighbors *as a 2-D
image*, omitting any neighbor outside the image frame. -/
def spec2DIndices (width height row col : ℕ) : List ℕ :=
  (if 0 < row then [((row - 1) * width + col) * 4] else []) ++
  (if row + 1 < height then [((row + 1) * width + col) * 4] else []) ++
  (if 0 < col then [(row * width + (col - 1)) * 4] else []) ++
  (if col + 1 < width then [(row * width + (col + 1)) * 4] else [])

/-- Written from the spec's words for claim C4: per-channel mean over
the 2-D in-bounds neighbors only, denominator equal to their count. -/
def specNeighborAverage2D (data : List ℕ) (width height row col : ℕ) : ℚ × ℚ × ℚ :=
  let ns := spec2DIndices width height row col
  let count : ℚ := (ns.length : ℚ)
  ((ns.map (fun i => px data i)).sum / count,
   (ns.map (fun i => px data (i + 1))).sum / count,
   (ns.map (fun i => px data (i + 2))).sum / count)

/-- Written from the spec's words for claim C6: the six rules evaluated
independently in the documented order, each appending exactly its flag
string when it triggers. -/
def specMetadataFlags (f : FileFacts) : List String :=
  ([(mimeInvalid f, "Invalid MIME type"),
    (sizeTooSmall f, "Suspiciously small file size"),
    (sizeTooLarge f, "Unusually large file size"),
    (timestampMissing f, "Missing modification timestamp"),
    (screenshotName f, "Screenshot detected"),
    (aiName f, "AI-related filename")].filter (fun p => p.1)).map (fun p => p.2)

/-- Rounding a rational in `[0, 100]` lands in `[0, 100]`. -/
lemma jsRound_mem {q : ℚ} (h0 : 0 ≤ q) (h1 : q ≤ 100) :
    0 ≤ jsRound q ∧ jsRound q ≤ 100 := by
  unfold jsRound
  refine ⟨Int.le_floor.mpr (by push_cast; linarith), ?_⟩
  have h2 : ⌊q + 1 / 2⌋ < 101 := Int.floor_lt.mpr (by push_cast; linarith)
  omega

/-- Rounding a real in `[0, 100]` lands in `[0, 100]`. -/
lemma jsRoundR_mem {x : ℝ} (h0 : 0 ≤ x) (h1 : x ≤ 100) :
    0 ≤ jsRoundR x ∧ jsRoundR x ≤ 100 := by
  unfold jsRoundR
  refine ⟨Int.le_floor.mpr (by push_cast; linarith), ?_⟩
  have h2 : ⌊x + 1 / 2⌋ < 101 := Int.floor_lt.mpr (by push_cast; linarith)
  omega

lemma anomalyCount_le (data : List ℕ) (width : ℕ) (d1 : ℕ → ℕ) :
    anomalyCount data width d1 ≤ 1000 := by
  have h := Finset.card_filter_le (Finset.range 1000)
    (fun i => 100 < pixelDiff data width (d1 i * 4))
  simpa [anomalyCount] using h

lemma severityRaw_mem (data : List ℕ) (width : ℕ) (d1 : ℕ → ℕ) :
    0 ≤ severityRaw data width d1 ∧ severityRaw data width d1 ≤ 100 := by
  have h := anomalyCount_le data width d1
  have h1 : (anomalyCount data width d1 : ℚ) ≤ 1000 := by exact_mod_cast h
  have h0 : (0 : ℚ) ≤ (anomalyCount data width d1 : ℚ) := Nat.cast_nonneg _
  constructor <;> (unfold severityRaw; linarith)

/-- The returned pixel anomaly severity lies in `[0, 100]`. -/
lemma severity_mem (data : List ℕ) (width : ℕ) (d1 : ℕ → ℕ) :
    0 ≤ (analyzePixelAnomalies data width d1).severity ∧
      (analyzePixelAnomalies data width d1).severity ≤ 100 := by
  have h := severityRaw_mem data width d1
  exact jsRound_mem h.1 h.2

lemma consistencyScore_mem (data : List ℕ) :
    0 ≤ consistencyScore data ∧ consistencyScore data ≤ 100 := by
  unfold consistencyScore
  refine ⟨le_max_left _ _, max_le (by norm_num) ?_⟩
  have h := Real.sqrt_nonneg ((lightVariance data : ℚ) : ℝ)
  nlinarith

/-- The returned lighting consistency score lies in `[0, 100]`. -/
lemma lightScore_mem (data : List ℕ) :
    0 ≤ (analyzeLightingAndShadows data).score ∧
      (analyzeLightingAndShadows data).score ≤ 100 := by
  have h := consistencyScore_mem data
  exact jsRoundR_mem h.1 h.2

lemma symmetryCount_le (data : List ℕ) (width : ℕ) (d2 : ℕ → ℕ) :
    symmetryCount data width d2 ≤ 50 := by
  have h := Finset.card_filter_le (Finset.range 50)
    (fun i => symmetricDiff data width (d2 i) < 30)
  simpa [symmetryCount] using h

lemma smoothCount_le (data : List ℕ) (width : ℕ) (d3 : ℕ → ℕ) :
    smoothCount data width d3 ≤ 1000 := by
  have h := Finset.card_filter_le (Finset.range 1000)
    (fun i => pixelDiff data width (d3 i * 4) < 20)
  simpa [smoothCount] using h

lemma aiRaw_mem (data : List ℕ) (width : ℕ) (d2 d3 : ℕ → ℕ) :
    0 ≤ aiRaw data width d2 d3 ∧ aiRaw data width d2 d3 ≤ 100 := by
  have h2 := symmetryCount_le data width d2
  have h3 := smoothCount_le data width d3
  have h2q : (symmetryCount data width d2 : ℚ) ≤ 50 := by exact_mod_cast h2
  have h3q : (smoothCount data width d3 : ℚ) ≤ 1000 := by exact_mod_cast h3
  have h2z : (0 : ℚ) ≤ (symmetryCount data width d2 : ℚ) := Nat.cast_nonneg _
  have h3z : (0 : ℚ) ≤ (smoothCount data width d3 : ℚ) := Nat.cast_nonneg _
  constructor <;> (unfold aiRaw; norm_num; linarith)

/-- The returned AI-artifact confidence lies in `[0, 100]`. -/
lemma aiConfidence_mem (data : List ℕ) (width : ℕ) (d2 d3 : ℕ → ℕ) :
    0 ≤ (detectAIArtifacts data width d2 d3).confidence ∧
      (detectAIArtifacts data width d2 d3).confidence ≤ 100 := by
  have h := aiRaw_mem data width d2 d3
  exact jsRound_mem h.1 h.2

lemma diversityRaw_mem (data : List ℕ) :
    0 ≤ diversityRaw data ∧ diversityRaw data ≤ 100 := by
  unfold diversityRaw
  constructor
  · have h0 : (0 : ℚ) ≤ (colorDiversityCount data : ℚ) := Nat.cast_nonneg _
    have : (0 : ℚ) ≤ (colorDiversityCount data : ℚ) / 250 * 100 := by positivity
    exact le_min (by norm_num) this
  · exact min_le_left _ _

/-- The returned semantic diversity score lies in `[0, 100]`. -/
lemma semScore_mem (data : List ℕ) :
    0 ≤ (analyzeSemanticLogic data).score ∧
      (analyzeSemanticLogic data).score ≤ 100 := by
  have h := diversityRaw_mem data
  exact jsRound_mem h.1 h.2

/-- The pre-clamp manipulation score is nonnegative: every weighted term
is nonnegative because each detector score lies in `[0, 100]`. -/
lemma manipPre_nonneg (data : List ℕ) (width : ℕ) (facts : FileFacts)
    (d1 d2 d3 : ℕ → ℕ) :
    0 ≤ jsRound (((analyzePixelAnomalies data width d1).severity : ℚ) * 0.25 +
      (100 - ((analyzeLightingAndShadows data).score : ℚ)) * 0.2 +
      ((detectAIArtifacts data width d2 d3).confidence : ℚ) * 0.35 +
      (((analyzeMetadata facts).flags.length : ℚ)) * 5 +
      (100 - ((analyzeSemanticLogic data).score : ℚ)) * 0.2) := by
  have h1 := (severity_mem data width d1).1
  have h2 := (lightScore_mem data).2
  have h3 := (aiConfidence_mem data width d2 d3).1
  have h4 := (semScore_mem data).2
  have c1 : (0 : ℚ) ≤ ((analyzePixelAnomalies data width d1).severity : ℚ) := by
    exact_mod_cast h1
  have c2 : ((analyzeLightingAndShadows data).score : ℚ) ≤ 100 := by exact_mod_cast h2
  have c3 : (0 : ℚ) ≤ ((detectAIArtifacts data width d2 d3).confidence : ℚ) := by
    exact_mod_cast h3
  have c4 : ((analyzeSemanticLogic data).score : ℚ) ≤ 100 := by exact_mod_cast h4
  have c5 : (0 : ℚ) ≤ (((analyzeMetadata facts).flags.length : ℚ)) := Nat.cast_nonneg _
  unfold jsRound
  apply Int.le_floor.mpr
  push_cast
  nlinarith

/-- C1: the aggregator computes
`manipulationScore = round(severity*0.25 + (100-lightingScore)*0.2 +
confidence*0.35 + flags.length*5 + (100-semanticScore)*0.2)`, computes
`trustScore = max(0, 100 - manipulationScore)` from the pre-clamp
manipulation score, and clamps both returned scores to `[0, 100]`. -/
theorem claim_C1_aggregation (data : List ℕ) (width : ℕ) (facts : FileFacts)
    (d1 d2 d3 : ℕ → ℕ) (hr : ℕ → ℚ) :
    (analyzeImage data width facts d1 d2 d3 hr).manipulationScore =
      min 100 (max 0 (jsRound
        (((analyzeImage data width facts d1 d2 d3 hr).pixelAnomalies.severity : ℚ) * 0.25 +
         (100 - ((analyzeImage data width facts d1 d2 d3 hr).lightingShadows.score : ℚ)) * 0.2 +
         ((analyzeImage data width facts d1 d2 d3 hr).aiArtifacts.confidence : ℚ) * 0.35 +
         (((analyzeImage data width facts d1 d2 d3 hr).metadata.flags.length : ℚ)) * 5 +
         (100 - ((analyzeImage data width facts d1 d2 d3 hr).semanticLogic.score : ℚ)) * 0.2))) ∧
    (analyzeImage data width facts d1 d2 d3 hr).trustScore =
      min 100 (max 0 (max 0 (100 - jsRound
        (((analyzeImage data width facts d1 d2 d3 hr).pixelAnomalies.severity : ℚ) * 0.25 +
         (100 - ((analyzeImage data width facts d1 d2 d3 hr).lightingShadows.score : ℚ)) * 0.2 +
         ((analyzeImage data width facts d1 d2 d3 hr).aiArtifacts.confidence : ℚ) * 0.35 +
         (((analyzeImage data width facts d1 d2 d3 hr).metadata.flags.length : ℚ)) * 5 +
         (100 - ((analyzeImage data width facts d1 d2 d3 hr).semanticLogic.score : ℚ)) * 0.2)))) :=
  ⟨rfl, rfl⟩

/-- C7 (code evaluated at the failing input): a 1×1 RGBA image is a
valid, positive-area buffer, yet the candidate-neighbor filter of
`getNeighborAverage` leaves no valid neighbor at its only sampled pixel,
so the per-channel average divides by a zero denominator; no degenerate
guard exists in `loadImageData` to prevent this. -/
theorem claim_C7_zero_denominator :
    neighborIndices (([10, 20, 30, 255] : List ℕ)).length 0 1 = [] := by decide

/-- C8: the returned post-clamp `manipulationScore` and `trustScore`
always sum to exactly 100. -/
theorem claim_C8_scores_sum (data : List ℕ) (width : ℕ) (facts : FileFacts)
    (d1 d2 d3 : ℕ → ℕ) (hr : ℕ → ℚ) :
    (analyzeImage data width facts d1 d2 d3 hr).manipulationScore +
      (analyzeImage data width facts d1 d2 d3 hr).trustScore = 100 := by
  have hm := manipPre_nonneg data width facts d1 d2 d3
  simp only [analyzeImage]
  omega

/-- C9: the returned `metadataAnalysis` always reports `hasExif = true`
and always carries a `dateTime` derived from the file's `lastModified`
value, for every input file, even when the metadata detector flagged a
missing modification timestamp. -/
theorem claim_C9_metadata_summary (data : List ℕ) (width : ℕ) (facts : FileFacts)
    (d1 d2 d3 : ℕ → ℕ) (hr : ℕ → ℚ) :
    (analyzeImage data width facts d1 d2 d3 hr).metadataAnalysis.hasExif = true ∧
      (analyzeImage data width facts d1 d2 d3 hr).metadataAnalysis.dateTime =
        some facts.lastModified :=
  ⟨rfl, rfl⟩

/-- C2: classification is evaluated in strict priority order with first
match winning: `aiArtifacts.detected` with confidence above 70 forces
`ai_generated` regardless of the other signals (in particular for
confidence 85, or any value above 70, even when the manipulation score
is under 50); otherwise a manipulation score above 50 gives `edited`;
otherwise `real`. -/
theorem claim_C2_priority (data : List ℕ) (width : ℕ) (facts : FileFacts)
    (d1 d2 d3 : ℕ → ℕ) (hr : ℕ → ℚ) :
    ((analyzeImage data width facts d1 d2 d3 hr).aiArtifacts.detected = true →
      70 < (analyzeImage data width facts d1 d2 d3 hr).aiArtifacts.confidence →
      (analyzeImage data width facts d1 d2 d3 hr).resultType = ResultType.ai_generated) ∧
    (¬((analyzeImage data width facts d1 d2 d3 hr).aiArtifacts.detected = true ∧
        70 < (analyzeImage data width facts d1 d2 d3 hr).aiArtifacts.confidence) →
      50 < (analyzeImage data width facts d1 d2 d3 hr).manipulationScore →
      (analyzeImage data width facts d1 d2 d3 hr).resultType = ResultType.edited) ∧
    (¬((analyzeImage data width facts d1 d2 d3 hr).aiArtifacts.detected = true ∧
        70 < (analyzeImage data width facts d1 d2 d3 hr).aiArtifacts.confidence) →
      (analyzeImage data width facts d1 d2 d3 hr).manipulationScore ≤ 50 →
      (analyzeImage data width facts d1 d2 d3 hr).resultType = ResultType.real) := by
  have hm := manipPre_nonneg data width facts d1 d2 d3
  refine ⟨?_, ?_, ?_⟩
  · intro h1 h2
    simp only [analyzeImage] at h1 h2 ⊢
    rw [if_pos ⟨h1, h2⟩]
  · intro h1 h2
    simp only [analyzeImage] at h1 h2 ⊢
    rw [if_neg h1, if_pos (by omega)]
  · intro h1 h2
    simp only [analyzeImage] at h1 h2 ⊢
    rw [if_neg h1, if_neg (by omega)]

/-- A uniform 2×2 gray image: every pixel is (100, 100, 100, 255). -/
def dataU : List ℕ :=
  [100, 100, 100, 255, 100, 100, 100, 255, 100, 100, 100, 255, 100, 100, 100, 255]

/-- The all-zero draw stream. -/
def dz : ℕ → ℕ := fun _ => 0

/-- The all-zero unit-interval draw stream. -/
def hrz : ℕ → ℚ := fun _ => 0

/-- Unsuspicious file facts. -/
def factsU : FileFacts := ⟨"image/png", 500000, "vacation.jpg", 5⟩

lemma symDiffU : symmetricDiff dataU 2 0 = 0 := by
  simp [symmetricDiff, px, dataU]

lemma pixDiffU : pixelDiff dataU 2 0 = 0 := by
  have h : neighborIndices 16 0 2 = [8, 4] := by decide
  simp [pixelDiff, getNeighborAverage, px, dataU, h]

lemma symU : symmetryCount dataU 2 dz = 50 := by
  unfold symmetryCount
  rw [Finset.filter_true_of_mem, Finset.card_range]
  intro i _
  simp only [dz, symDiffU]
  norm_num

lemma smoothU : smoothCount dataU 2 dz = 1000 := by
  unfold smoothCount
  rw [Finset.filter_true_of_mem, Finset.card_range]
  intro i _
  simp only [dz, Nat.zero_mul, pixDiffU]
  norm_num

lemma aiRawU : aiRaw dataU 2 dz dz = 100 := by
  unfold aiRaw
  rw [symU, smoothU]
  norm_num

lemma detectedU : (detectAIArtifacts dataU 2 dz dz).detected = true := by
  show decide (60 < aiRaw dataU 2 dz dz) = true
  rw [aiRawU]
  decide

lemma confidenceU : (detectAIArtifacts dataU 2 dz dz).confidence = 100 := by
  show jsRound (aiRaw dataU 2 dz dz) = 100
  rw [aiRawU]
  unfold jsRound
  norm_num

/-- Witness for C2: on the uniform 2×2 gray image with all-zero draws the
AI-artifact detector fires with confidence 100, and the result is
classified `ai_generated`. -/
theorem claim_C2_priority_witness :
    (analyzeImage dataU 2 factsU dz dz dz hrz).resultType = ResultType.ai_generated := by
  refine (claim_C2_priority dataU 2 factsU dz dz dz hrz).1 ?_ ?_
  · show (detectAIArtifacts dataU 2 dz dz).detected = true
    exact detectedU
  · show 70 < (detectAIArtifacts dataU 2 dz dz).confidence
    rw [confidenceU]
    norm_num

/-- C3: for every valid non-degenerate pixel buffer and all outcomes of
the random sampling, the returned pixel anomaly severity, lighting
consistency score, AI-artifact confidence and semantic diversity score
lie in `[0, 100]`, and the final manipulation and trust scores lie in
`[0, 100]`. -/
theorem claim_C3_ranges (data : List ℕ) (width height : ℕ) (facts : FileFacts)
    (d1 d2 d3 : ℕ → ℕ) (hr : ℕ → ℚ)
    (hw : 0 < width) (hh : 0 < height)
    (hlen : data.length = 4 * (width * height))
    (hd1 : ∀ i, d1 i < width * height) (hd2 : ∀ i, d2 i < height)
    (hd3 : ∀ i, d3 i < width * height) :
    (0 ≤ (analyzeImage data width facts d1 d2 d3 hr).pixelAnomalies.severity ∧
      (analyzeImage data width facts d1 d2 d3 hr).pixelAnomalies.severity ≤ 100) ∧
    (0 ≤ (analyzeImage data width facts d1 d2 d3 hr).lightingShadows.score ∧
      (analyzeImage data width facts d1 d2 d3 hr).lightingShadows.score ≤ 100) ∧
    (0 ≤ (analyzeImage data width facts d1 d2 d3 hr).aiArtifacts.confidence ∧
      (analyzeImage data width facts d1 d2 d3 hr).aiArtifacts.confidence ≤ 100) ∧
    (0 ≤ (analyzeImage data width facts d1 d2 d3 hr).semanticLogic.score ∧
      (analyzeImage data width facts d1 d2 d3 hr).semanticLogic.score ≤ 100) ∧
    (0 ≤ (analyzeImage data width facts d1 d2 d3 hr).manipulationScore ∧
      (analyzeImage data width facts d1 d2 d3 hr).manipulationScore ≤ 100) ∧
    (0 ≤ (analyzeImage data width facts d1 d2 d3 hr).trustScore ∧
      (analyzeImage data width facts d1 d2 d3 hr).trustScore ≤ 100) := by
  have h1 := severity_mem data width d1
  have h2 := lightScore_mem data
  have h3 := aiConfidence_mem data width d2 d3
  have h4 := semScore_mem data
  refine ⟨?_, ?_, ?_, ?_, ?_, ?_⟩ <;> simp only [analyzeImage] <;>
    first
      | exact h1
      | exact h2
      | exact h3
      | exact h4
      | (constructor <;> omega)

/-- Witness for C3: the bounds instantiated at the uniform 2×2 gray
image with all-zero draw streams. -/
theorem claim_C3_ranges_witness :
    (0 ≤ (analyzeImage dataU 2 factsU dz dz dz hrz).pixelAnomalies.severity ∧
      (analyzeImage dataU 2 factsU dz dz dz hrz).pixelAnomalies.severity ≤ 100) ∧
    (0 ≤ (analyzeImage dataU 2 factsU dz dz dz hrz).lightingShadows.score ∧
      (analyzeImage dataU 2 factsU dz dz dz hrz).lightingShadows.score ≤ 100) ∧
    (0 ≤ (analyzeImage dataU 2 factsU dz dz dz hrz).aiArtifacts.confidence ∧
      (analyzeImage dataU 2 factsU dz dz dz hrz).aiArtifacts.confidence ≤ 100) ∧
    (0 ≤ (analyzeImage dataU 2 factsU dz dz dz hrz).semanticLogic.score ∧
      (analyzeImage dataU 2 factsU dz dz dz hrz).semanticLogic.score ≤ 100) ∧
    (0 ≤ (analyzeImage dataU 2 factsU dz dz dz hrz).manipulationScore ∧
      (analyzeImage dataU 2 factsU dz dz dz hrz).manipulationScore ≤ 100) ∧
    (0 ≤ (analyzeImage dataU 2 factsU dz dz dz hrz).trustScore ∧
      (analyzeImage dataU 2 factsU dz dz dz hrz).trustScore ≤ 100) :=
  claim_C3_ranges dataU 2 2 factsU dz dz dz hrz (by norm_num) (by norm_num)
    (by norm_num [dataU]) (fun i => by norm_num [dz]) (fun i => by norm_num [dz])
    (fun i => by norm_num [dz])

/-- C6: the metadata detector is a pure function of `FileFacts` that
evaluates its six rules independently in the documented order, appending
exactly the corresponding flag string when a rule triggers (so repeated
calls on fixed facts give the identical list in identical order), and
`authentic` holds exactly when the flags list is empty. -/
theorem claim_C6_metadata (f : FileFacts) :
    metadataFlags f = specMetadataFlags f ∧
      ((analyzeMetadata f).authentic = true ↔ (analyzeMetadata f).flags = []) := by
  constructor
  · unfold metadataFlags specMetadataFlags
    cases mimeInvalid f <;> cases sizeTooSmall f <;> cases sizeTooLarge f <;>
      cases timestampMissing f <;> cases screenshotName f <;> cases aiName f <;> simp
  · show ((metadataFlags f).length == 0) = true ↔ metadataFlags f = []
    simp [List.length_eq_zero]

/-- A 2×1 buffer whose two pixels are black and gray 152: its brightness
population variance is exactly 5776 = 76², so the unrounded consistency
score is 2060/51 ≈ 40.39. -/
def dataC5 : List ℕ := [0, 0, 0, 255, 152, 152, 152, 255]

lemma varC5 : lightVariance dataC5 = 5776 := by
  norm_num [lightVariance, lightMean, brightnessList, px, dataC5, List.range_succ]

lemma csC5 : consistencyScore dataC5 = 2060 / 51 := by
  unfold consistencyScore
  rw [varC5]
  rw [show (((5776 : ℚ)) : ℝ) = (76 : ℝ) ^ 2 by norm_num]
  rw [Real.sqrt_sq (by norm_num : (0:ℝ) ≤ 76)]
  rw [max_eq_right] <;> norm_num

/-- Counterexample to C5: on `dataC5` the unrounded consistency score is
2060/51 > 40, so the detector reports `consistent`, while the returned
rounded score is exactly 40 — on which the claimed comparison
`score > 40` would report inconsistent.  The comparison is therefore on
the unrounded value, not on the rounded one. -/
theorem claim_C5_counterexample :
    (analyzeLightingAndShadows dataC5).consistent ∧
      (analyzeLightingAndShadows dataC5).score = 40 := by
  constructor
  · show 40 < consistencyScore dataC5
    rw [csC5]; norm_num
  · show jsRoundR (consistencyScore dataC5) = 40
    rw [csC5]; unfold jsRoundR; norm_num

/-- C5 as amended: the lighting detector compares the *unrounded*
consistency score `max(0, 100 − (sqrt(variance)/255)·200)` with 40;
equivalently, it reports `consistent` exactly when the population
brightness variance is below 76.5² = 23409/4.  Only the returned
`score` field is rounded. -/
theorem claim_C5_amended (data : List ℕ) :
    (analyzeLightingAndShadows data).consistent ↔ lightVariance data < 23409 / 4 := by
  show 40 < consistencyScore data ↔ _
  unfold consistencyScore
  rw [lt_max_iff]
  constructor
  · rintro (h | h)
    · norm_num at h
    · have hs : Real.sqrt ((lightVariance data : ℚ) : ℝ) < 76.5 := by nlinarith
      have h1 := (Real.sqrt_lt' (by norm_num : (0:ℝ) < 76.5)).mp hs
      have h2 : ((lightVariance data : ℚ) : ℝ) < (((23409 : ℚ) / 4 : ℚ) : ℝ) := by
        push_cast
        nlinarith
      exact_mod_cast h2
  · intro h
    right
    have h2 : ((lightVariance data : ℚ) : ℝ) < 76.5 ^ 2 := by
      have h3 : ((lightVariance data : ℚ) : ℝ) < (((23409 : ℚ) / 4 : ℚ) : ℝ) := by
        exact_mod_cast h
      push_cast at h3 ⊢
      nlinarith
    have hs := (Real.sqrt_lt' (by norm_num : (0:ℝ) < 76.5)).mpr h2
    nlinarith [Real.sqrt_nonneg ((lightVariance data : ℚ) : ℝ)]

/-- A 2×2 buffer: the pixel at row 0, col 1 is white (255), every other
pixel is black.  Target pixel: row 1, col 0 (flat index 8). -/
def data4 : List ℕ :=
  [0, 0, 0, 255, 255, 255, 255, 255, 0, 0, 0, 255, 0, 0, 0, 255]

/-- Counterexample to C4: in the 2×2 buffer `data4`, the leftmost-column
pixel at row 1 (flat index 8) *does* receive a "left" neighbor — flat
index 8 − 4 = 4, the rightmost pixel of row 0 — because the source
filters candidates by flat-array bounds only.  Its red average is
therefore (0 + 255 + 0)/3 = 85, while the spec's 2-D in-bounds average
is (0 + 0)/2 = 0. -/
theorem claim_C4_counterexample :
    (getNeighborAverage data4 8 2).1 = 85 ∧
      (specNeighborAverage2D data4 2 2 1 0).1 = 0 ∧
      ((8 : ℤ) - 4) ∈ neighborIndices data4.length 8 2 := by
  refine ⟨?_, ?_, ?_⟩
  · have h : neighborIndices 16 8 2 = [0, 4, 12] := by decide
    simp [getNeighborAverage, px, data4, h]
    norm_num
  · have h : spec2DIndices 2 2 1 0 = [0, 12] := by decide
    simp [specNeighborAverage2D, px, data4, h]
  · decide

lemma filter_four {p : ℤ → Bool} {a b c d : ℤ} (ha : p a = true) (hb : p b = true)
    (hc : p c = true) (hd : p d = true) : [a, b, c, d].filter p = [a, b, c, d] := by
  simp [List.filter_cons, ha, hb, hc, hd]

/-- C4 as amended: the neighbor average filters the four candidate flat
indices `index ± width*4`, `index ± 4` by flat-array bounds only, the
denominator being the count of candidates passing that check.  The
horizontal candidates are not checked against row boundaries: a
leftmost-column pixel at any row ≥ 1 includes flat index `index − 4` —
the last pixel of the previous row — among its averaged neighbors.  For
pixels strictly interior to the frame the flat-bounds average coincides
with the spec's 2-D in-bounds average. -/
theorem claim_C4_amended (data : List ℕ) (width height row col : ℕ)
    (hlen : data.length = 4 * (width * height)) :
    (0 < row → row < height → 0 < width →
      (((row * width * 4 : ℕ) : ℤ) - 4) ∈ neighborIndices data.length (row * width * 4) width) ∧
    (0 < row → row + 1 < height → 0 < col → col + 1 < width →
      getNeighborAverage data ((row * width + col) * 4) width =
        specNeighborAverage2D data width height row col) := by
  constructor
  · intro h1 h2 h3
    have n1 : width ≤ row * width := Nat.le_mul_of_pos_left width h1
    have n2 : row * width ≤ height * width := Nat.mul_le_mul_right width h2.le
    unfold neighborIndices
    rw [List.mem_filter]
    refine ⟨by simp, ?_⟩
    rw [Bool.and_eq_true, decide_eq_true_eq, decide_eq_true_eq, hlen]
    constructor <;> push_cast <;> nlinarith
  · intro h1 h2 h3 h4
    obtain ⟨r, rfl⟩ : ∃ r, row = r + 1 := ⟨row - 1, by omega⟩
    obtain ⟨c, rfl⟩ : ∃ c, col = c + 1 := ⟨col - 1, by omega⟩
    have hb : ((r + 1) * width + (c + 1)) * 4 + width * 4 + 4 ≤ 4 * (width * height) := by
      have k1 : r + 3 ≤ height := by omega
      have k2 : (r + 3) * width ≤ height * width := Nat.mul_le_mul_right width k1
      nlinarith
    have e : neighborIndices data.length (((r + 1) * width + (c + 1)) * 4) width =
        [((((r + 1) * width + (c + 1)) * 4 : ℕ) : ℤ) - width * 4,
         ((((r + 1) * width + (c + 1)) * 4 : ℕ) : ℤ) + width * 4,
         ((((r + 1) * width + (c + 1)) * 4 : ℕ) : ℤ) - 4,
         ((((r + 1) * width + (c + 1)) * 4 : ℕ) : ℤ) + 4] := by
      unfold neighborIndices
      apply filter_four <;> rw [Bool.and_eq_true, decide_eq_true_eq, decide_eq_true_eq, hlen] <;>
        constructor <;> push_cast <;> nlinarith
    have e2 : spec2DIndices width height (r + 1) (c + 1) =
        [(r * width + (c + 1)) * 4, ((r + 2) * width + (c + 1)) * 4,
         ((r + 1) * width + c) * 4, ((r + 1) * width + (c + 2)) * 4] := by
      unfold spec2DIndices
      rw [if_pos h1, if_pos h2, if_pos h3, if_pos h4]
      simp
    have j1 : (((((r + 1) * width + (c + 1)) * 4 : ℕ) : ℤ) - width * 4).toNat =
        (r * width + (c + 1)) * 4 := by
      rw [show ((((r + 1) * width + (c + 1)) * 4 : ℕ) : ℤ) - width * 4 =
        (((r * width + (c + 1)) * 4 : ℕ) : ℤ) by push_cast; ring]
      exact Int.toNat_natCast _
    have j2 : (((((r + 1) * width + (c + 1)) * 4 : ℕ) : ℤ) + width * 4).toNat =
        ((r + 2) * width + (c + 1)) * 4 := by
      rw [show ((((r + 1) * width + (c + 1)) * 4 : ℕ) : ℤ) + width * 4 =
        ((((r + 2) * width + (c + 1)) * 4 : ℕ) : ℤ) by push_cast; ring]
      exact Int.toNat_natCast _
    have j3 : (((((r + 1) * width + (c + 1)) * 4 : ℕ) : ℤ) - 4).toNat =
        ((r + 1) * width + c) * 4 := by
      rw [show ((((r + 1) * width + (c + 1)) * 4 : ℕ) : ℤ) - 4 =
        ((((r + 1) * width + c) * 4 : ℕ) : ℤ) by push_cast; ring]
      exact Int.toNat_natCast _
    have j4 : (((((r + 1) * width + (c + 1)) * 4 : ℕ) : ℤ) + 4).toNat =
        ((r + 1) * width + (c + 2)) * 4 := by
      rw [show ((((r + 1) * width + (c + 1)) * 4 : ℕ) : ℤ) + 4 =
        ((((r + 1) * width + (c + 2)) * 4 : ℕ) : ℤ) by push_cast; ring]
      exact Int.toNat_natCast _
    simp only [getNeighborAverage, specNeighborAverage2D, e, e2, List.map_cons, List.map_nil,
      List.sum_cons, List.sum_nil, List.length_cons, List.length_nil, j1, j2, j3, j4]

/-- Witness for the amended C4: the wrap-around membership instantiated
on `data4` (2×2, row 1), and the interior coincidence instantiated at
the center pixel of a uniform 3×3 image. -/
theorem claim_C4_amended_witness :
    ((((1 * 2 * 4 : ℕ) : ℤ) - 4) ∈ neighborIndices data4.length (1 * 2 * 4) 2) ∧
      getNeighborAverage (List.replicate 36 50) ((1 * 3 + 1) * 4) 3 =
        specNeighborAverage2D (List.replicate 36 50) 3 3 1 1 :=
  ⟨(claim_C4_amended data4 2 2 1 0 (by norm_num [data4])).1 (by norm_num) (by norm_num)
      (by norm_num),
   (claim_C4_amended (List.replicate 36 50) 3 3 1 1 (by simp)).2 (by norm_num) (by norm_num)
      (by norm_num) (by norm_num)⟩

/-- C10: for all unit-interval draws the region count never exceeds 8
and every individual region value x, y, width, height, intensity lies in
`[0, 1]`; yet regions are not guaranteed to stay inside the frame: there
are valid detector scores and draw outcomes producing a region with
`x + width > 1` (x near 0.8, width near 0.25). -/
theorem claim_C10_heatmap :
    (∀ (severity confidence : ℤ) (hr : ℕ → ℚ), (∀ n, 0 ≤ hr n ∧ hr n < 1) →
      (generateHeatmap severity confidence hr).length ≤ 8 ∧
      ∀ reg ∈ generateHeatmap severity confidence hr,
        (0 ≤ reg.x ∧ reg.x ≤ 1) ∧ (0 ≤ reg.y ∧ reg.y ≤ 1) ∧
        (0 ≤ reg.width ∧ reg.width ≤ 1) ∧ (0 ≤ reg.height ∧ reg.height ≤ 1) ∧
        (0 ≤ reg.intensity ∧ reg.intensity ≤ 1)) ∧
    (∃ severity confidence : ℤ, 0 ≤ severity ∧ severity ≤ 100 ∧ 0 ≤ confidence ∧
      confidence ≤ 100 ∧ ∃ hr : ℕ → ℚ, (∀ n, 0 ≤ hr n ∧ hr n < 1) ∧
      ∃ reg ∈ generateHeatmap severity confidence hr, 1 < reg.x + reg.width) := by
  constructor
  · intro severity confidence hr hhr
    constructor
    · simp only [generateHeatmap, List.length_map, List.length_range]
      omega
    · intro reg hreg
      simp only [generateHeatmap, List.mem_map, List.mem_range] at hreg
      obtain ⟨i, hi, rfl⟩ := hreg
      obtain ⟨a0, a1⟩ := hhr (5 * i)
      obtain ⟨b0, b1⟩ := hhr (5 * i + 1)
      obtain ⟨c0, c1⟩ := hhr (5 * i + 2)
      obtain ⟨d0, d1⟩ := hhr (5 * i + 3)
      obtain ⟨e0, e1⟩ := hhr (5 * i + 4)
      refine ⟨⟨by nlinarith, by nlinarith⟩, ⟨by nlinarith, by nlinarith⟩,
        ⟨by nlinarith, by nlinarith⟩, ⟨by nlinarith, by nlinarith⟩,
        ⟨by nlinarith, by nlinarith⟩⟩
  · refine ⟨100, 100, by norm_num, by norm_num, by norm_num, by norm_num,
      fun _ => (99 : ℚ) / 100, fun n => by norm_num, ?_⟩
    simp only [generateHeatmap]
    refine ⟨_, List.mem_map.mpr ⟨0, ?_, rfl⟩, ?_⟩
    · rw [List.mem_range]
      norm_num
    · norm_num

/-- Witness for C10: the region-count bound instantiated at severity 100,
confidence 100 and the constant draw 1/2. -/
theorem claim_C10_heatmap_witness :
    (generateHeatmap 100 100 (fun _ => (1 : ℚ) / 2)).length ≤ 8 :=
  (claim_C10_heatmap.1 100 100 (fun _ => (1 : ℚ) / 2) (fun n => by norm_num)).1

end TruePic
